import Mathlib

/-!
Shallow embedding of the bank-account / operations domain model from
`core/BankAccount.py` and `core/Operations.py`.

Modelling decisions, all traced to the source:

* Python `Decimal` values are modelled as `ℚ` (exact arbitrary-precision
  decimal arithmetic on the quantities the program uses).

* Python name mangling is modelled faithfully.  `Operation.__init__` assigns
  `self.__status`, which Python mangles to the attribute `_Operation__status`;
  the read-only `status` property (defined in class `Operation`) reads that
  same attribute.  The subclass methods `DepositOperation.execute/undo` and
  `WithdrawalOperation.execute/undo` also assign `self.__status`, but since
  those assignments occur textually inside the subclass bodies they mangle to
  the distinct attributes `_DepositOperation__status` and
  `_WithdrawalOperation__status`.  The records below therefore carry a base
  field `opStatus` (= `_Operation__status`, read by the `status` property) and
  a separate subclass field (`depStatus` / `wStatus`), initially absent
  (`none`), exactly as the Python instance initially lacks the subclass
  attribute.

* The module-level counters are incremented with `id_counter += 1` /
  `operation_id_counter += 1` inside methods that contain no `global`
  declaration.  An augmented assignment makes the name local to the function,
  so the read of the (unbound) local raises `UnboundLocalError` before the
  increment.  The constructor embeddings below return that error on the
  paths that reach the increment.

* The account's `_operations_history` list stores references to operation
  objects; the only data `str(operation)` exposes is the operation id and
  the class name on which `__str__` is defined, so a history entry is
  embedded as that pair.

* Both `execute` success paths append to
  `self.bank_account._operation_history` (singular), but `BankAccount`
  only ever defines `_operations_history` (plural).  Reading the missing
  attribute raises `AttributeError`, after the balance mutation on the
  previous line has already taken effect and before the subclass status
  write and the `return True` that follow the append.  The `execute`
  embeddings therefore return the raised error together with the mutated
  account state.
-/

/-- Lifecycle characters used for `status` in `Operations.py`:
`'I'` initialized, `'E'` failed, `'D'` done, `'U'` undone. -/
abbrev StatusChar := Char

/-- Which concrete class a history entry's `__str__` reports.
`InterestAccrualOperation` inherits `DepositOperation.__str__`, whose
format string hard-codes the text `DepositOperation`. -/
inductive OpKind where
  | deposit
  | withdrawal
deriving DecidableEq, Repr

/-- A reference stored in `BankAccount._operations_history`: the data of the
appended operation observable through `str(operation)`. -/
structure OpInfo where
  opId : Int
  kind : OpKind
deriving DecidableEq, Repr

/-- The mutable state of a `BankAccount` object that the operations touch:
`_balance` and `_operations_history` (`BankAccount.__init__` sets them to
`Decimal('0')` and `[]`). -/
structure BankAccountState where
  balance : ℚ
  history : List OpInfo
deriving DecidableEq, Repr

/-- State of a `DepositOperation` instance.  `opId`, `opStatus`, `content`
are the fields written by `Operation.__init__` (mangled to
`_Operation__id`, `_Operation__status`, `_Operation__content`); `depStatus`
is the attribute `_DepositOperation__status` written only by the subclass's
`execute`/`undo` bodies; `value` is `_DepositOperation__value`. -/
structure DepositOperationState where
  opId : Int
  opStatus : StatusChar
  content : String
  depStatus : Option StatusChar
  value : ℚ
deriving DecidableEq, Repr

/-- State of a `WithdrawalOperation` instance; `wStatus` is the attribute
`_WithdrawalOperation__status` written only by the subclass's
`execute`/`undo` bodies. -/
structure WithdrawalOperationState where
  opId : Int
  opStatus : StatusChar
  content : String
  wStatus : Option StatusChar
  value : ℚ
deriving DecidableEq, Repr

/-- The `status` property defined in class `Operation`: it returns
`self.__status`, i.e. the attribute `_Operation__status`. -/
def DepositOperationState.status (op : DepositOperationState) : StatusChar :=
  op.opStatus

/-- The `status` property defined in class `Operation`, read through a
`WithdrawalOperation` instance: it returns `_Operation__status`. -/
def WithdrawalOperationState.status (op : WithdrawalOperationState) : StatusChar :=
  op.opStatus

/-- The exception kinds the embedded code can raise: `ValueError` from the
explicit `isinstance` checks, `UnboundLocalError` from reading a
module-level counter that a `+= 1` without `global` made function-local,
and `AttributeError` from reading the nonexistent
`_operation_history` attribute during `execute`. -/
inductive PyError where
  | valueError
  | unboundLocalError
  | attributeError
deriving DecidableEq, Repr

/-- Fields a `DepositOperation` instance would hold right after
`__init__` finished its assignments: `_Operation__status = 'I'`, no
subclass status attribute yet, and the given value and comment.  The id
is a parameter because the id counter is external to the object. -/
def DepositOperation.initState (opId : Int) (value : ℚ) (content : String) :
    DepositOperationState :=
  { opId := opId, opStatus := 'I', content := content, depStatus := none,
    value := value }

/-- Fields a `WithdrawalOperation` instance would hold right after
`__init__`.  Note `WithdrawalOperation.__init__` calls `super().__init__()`
without forwarding `content`, so the stored comment is always `''`. -/
def WithdrawalOperation.initState (opId : Int) (value : ℚ) :
    WithdrawalOperationState :=
  { opId := opId, opStatus := 'I', content := "", wStatus := none,
    value := value }

/-- Fields an `InterestAccrualOperation` instance would hold right after
`__init__`: it is a `DepositOperation` whose value is
`rate * bank_account.balance`, evaluated against the account state at
construction time. -/
def InterestAccrualOperation.initState (opId : Int) (acct : BankAccountState)
    (rate : ℚ) : DepositOperationState :=
  DepositOperation.initState opId (rate * acct.balance) ""

/-- `DepositOperation.execute`.  Guard: `if self.status != 'I': return False`
(reading the `status` property, i.e. `_Operation__status`).  Otherwise
`self.bank_account._balance += self.value` takes effect, and then
`self.bank_account._operation_history.append(self)` raises
`AttributeError`: the account defines `_operations_history` (plural),
never `_operation_history`.  The `self.__status = 'D'` write and
`return True` after the append are unreachable, so the operation state is
unchanged and no history entry is appended.  Result: (operation state,
account state, returned Bool or raised error). -/
def DepositOperation.execute (op : DepositOperationState)
    (acct : BankAccountState) :
    DepositOperationState × BankAccountState × Except PyError Bool :=
  if op.status ≠ 'I' then
    (op, acct, Except.ok false)
  else
    (op, { acct with balance := acct.balance + op.value },
     Except.error PyError.attributeError)

/-- `DepositOperation.undo`.  Guard: `if self.status != 'D': return False`
(again reading `_Operation__status`).  Otherwise `_balance -= value`,
`self.__status = 'U'` (writes `_DepositOperation__status`), optionally
prints a negative-balance warning (an observation-only side channel not
carried in the state), and returns True. -/
def DepositOperation.undo (op : DepositOperationState)
    (acct : BankAccountState) :
    DepositOperationState × BankAccountState × Bool :=
  if op.status ≠ 'D' then
    (op, acct, false)
  else
    ({ op with depStatus := some 'U' },
     { acct with balance := acct.balance - op.value },
     true)

/-- `WithdrawalOperation.execute`.  Guard 1: `status != 'I'` returns False.
Guard 2: `if _balance - value < 0`, set `self.__status = 'E'`
(writes `_WithdrawalOperation__status`) and return False.  Otherwise
`_balance -= value` takes effect and the append to the nonexistent
`_operation_history` attribute raises `AttributeError`; the
`self.__status = 'D'` write and `return True` after it are unreachable. -/
def WithdrawalOperation.execute (op : WithdrawalOperationState)
    (acct : BankAccountState) :
    WithdrawalOperationState × BankAccountState × Except PyError Bool :=
  if op.status ≠ 'I' then
    (op, acct, Except.ok false)
  else if acct.balance - op.value < 0 then
    ({ op with wStatus := some 'E' }, acct, Except.ok false)
  else
    (op, { acct with balance := acct.balance - op.value },
     Except.error PyError.attributeError)

/-- `WithdrawalOperation.undo`.  Guard: `status != 'D'` returns False.
Otherwise `_balance += value`, `self.__status = 'U'`
(writes `_WithdrawalOperation__status`), return True. -/
def WithdrawalOperation.undo (op : WithdrawalOperationState)
    (acct : BankAccountState) :
    WithdrawalOperationState × BankAccountState × Bool :=
  if op.status ≠ 'D' then
    (op, acct, false)
  else
    ({ op with wStatus := some 'U' },
     { acct with balance := acct.balance + op.value },
     true)

/-- `str(operation)`: `DepositOperation.__str__` is
`f"{self.id}: DepositOperation"` (also inherited verbatim by
`InterestAccrualOperation`), `WithdrawalOperation.__str__` is
`f"{self.id}: WithdrawalOperation"`. -/
def strOfOpInfo (i : OpInfo) : String :=
  match i.kind with
  | OpKind.deposit => toString i.opId ++ ": DepositOperation"
  | OpKind.withdrawal => toString i.opId ++ ": WithdrawalOperation"

/-- The `BankAccount.operations_history` property: builds a new list holding
`str(operation)` for each stored operation, in order. -/
def BankAccount.operations_history (acct : BankAccountState) : List String :=
  acct.history.map strOfOpInfo

/-- A dynamically typed Python value passed to a constructor. -/
inductive PyVal where
  | user (uid : Nat)
  | bankAccount (st : BankAccountState)
  | decimal (q : ℚ)
  | str (s : String)
  | int (n : Int)
  | pyNone
deriving DecidableEq, Repr

/-- `isinstance(x, User)`. -/
def PyVal.isUser : PyVal → Bool
  | PyVal.user _ => true
  | _ => false

/-- `isinstance(x, BankAccount)`. -/
def PyVal.isBankAccount : PyVal → Bool
  | PyVal.bankAccount _ => true
  | _ => false

/-- `isinstance(x, Decimal)`. -/
def PyVal.isDecimal : PyVal → Bool
  | PyVal.decimal _ => true
  | _ => false

/-- `Operation.__init__` after any subclass `isinstance` checks passed:
`operation_id_counter += 1` with no `global operation_id_counter`
declaration, so the read of the unbound local raises `UnboundLocalError`;
the would-be id is never produced. -/
def Operation.initCounter : Except PyError Int :=
  Except.error PyError.unboundLocalError

/-- `BankAccount.__init__(user)`: raises `ValueError` when `user` is not a
`User`; otherwise reaches `id_counter += 1` (no `global id_counter`), which
raises `UnboundLocalError` before any field is assigned. -/
def BankAccount.init (user : PyVal) : Except PyError BankAccountState :=
  if user.isUser then Except.error PyError.unboundLocalError
  else Except.error PyError.valueError

/-- `DepositOperation.__init__(bank_account, value, content='')`: checks
`isinstance(bank_account, BankAccount)` then `isinstance(value, Decimal)`
(each failure raises `ValueError`), then calls `super().__init__(content)`,
whose counter increment raises; the field assignments after it never run. -/
def DepositOperation.init (bank_account value : PyVal) (content : String) :
    Except PyError DepositOperationState :=
  match bank_account, value with
  | PyVal.bankAccount _, PyVal.decimal q =>
      Operation.initCounter.bind fun opId =>
        Except.ok (DepositOperation.initState opId q content)
  | PyVal.bankAccount _, _ => Except.error PyError.valueError
  | _, _ => Except.error PyError.valueError

/-- `WithdrawalOperation.__init__(bank_account, value, content='')`: same
check order as the deposit constructor; `super().__init__()` drops
`content` and its counter increment raises. -/
def WithdrawalOperation.init (bank_account value : PyVal)
    (_content : String) : Except PyError WithdrawalOperationState :=
  match bank_account, value with
  | PyVal.bankAccount _, PyVal.decimal q =>
      Operation.initCounter.bind fun opId =>
        Except.ok (WithdrawalOperation.initState opId q)
  | PyVal.bankAccount _, _ => Except.error PyError.valueError
  | _, _ => Except.error PyError.valueError

/-- `InterestAccrualOperation.__init__(bank_account, rate)`: checks
`isinstance(bank_account, BankAccount)` then `isinstance(rate, Decimal)`,
then calls `super().__init__(bank_account, value=rate * bank_account.balance)`
— the deposit constructor on a value frozen from the balance at this
instant. -/
def InterestAccrualOperation.init (bank_account rate : PyVal) :
    Except PyError DepositOperationState :=
  match bank_account, rate with
  | PyVal.bankAccount st, PyVal.decimal r =>
      DepositOperation.init (PyVal.bankAccount st)
        (PyVal.decimal (r * st.balance)) ""
  | PyVal.bankAccount _, _ => Except.error PyError.valueError
  | _, _ => Except.error PyError.valueError

/-- A call made to an operation object. -/
inductive Call where
  | execute
  | undo
deriving DecidableEq, Repr

/-- Dispatch one call on a `DepositOperation`.  The third component is the
returned Bool or the raised error; `undo` never raises, so its Bool result
is wrapped in `Except.ok`. -/
def DepositOperation.run (op : DepositOperationState) (acct : BankAccountState) :
    Call → DepositOperationState × BankAccountState × Except PyError Bool
  | Call.execute => DepositOperation.execute op acct
  | Call.undo =>
      ((DepositOperation.undo op acct).1, (DepositOperation.undo op acct).2.1,
       Except.ok (DepositOperation.undo op acct).2.2)

/-- Run a sequence of calls on a `DepositOperation`, threading the operation
and account state.  A raised error is caught by the caller between calls;
the state effects a call applied before raising persist. -/
def DepositOperation.runSeq (op : DepositOperationState)
    (acct : BankAccountState) : List Call → DepositOperationState × BankAccountState
  | [] => (op, acct)
  | c :: cs =>
      DepositOperation.runSeq (DepositOperation.run op acct c).1
        (DepositOperation.run op acct c).2.1 cs

/-- Dispatch one call on a `WithdrawalOperation`; as for the deposit, the
third component is the returned Bool or the raised error. -/
def WithdrawalOperation.run (op : WithdrawalOperationState)
    (acct : BankAccountState) :
    Call → WithdrawalOperationState × BankAccountState × Except PyError Bool
  | Call.execute => WithdrawalOperation.execute op acct
  | Call.undo =>
      ((WithdrawalOperation.undo op acct).1,
       (WithdrawalOperation.undo op acct).2.1,
       Except.ok (WithdrawalOperation.undo op acct).2.2)

/-- Run a sequence of calls on a `WithdrawalOperation`. -/
def WithdrawalOperation.runSeq (op : WithdrawalOperationState)
    (acct : BankAccountState) :
    List Call → WithdrawalOperationState × BankAccountState
  | [] => (op, acct)
  | c :: cs =>
      WithdrawalOperation.runSeq (WithdrawalOperation.run op acct c).1
        (WithdrawalOperation.run op acct c).2.1 cs

/-!
Helper lemmas shared by the claim theorems: the subclass bodies only ever
assign the name-mangled subclass status attribute, so no call changes the
attribute `_Operation__status` that the `status` property reads.
-/

theorem depositExecute_opStatus (op : DepositOperationState)
    (acct : BankAccountState) :
    (DepositOperation.execute op acct).1.opStatus = op.opStatus := by
  unfold DepositOperation.execute
  split <;> rfl

theorem depositUndo_opStatus (op : DepositOperationState)
    (acct : BankAccountState) :
    (DepositOperation.undo op acct).1.opStatus = op.opStatus := by
  unfold DepositOperation.undo
  split <;> rfl

theorem withdrawalExecute_opStatus (op : WithdrawalOperationState)
    (acct : BankAccountState) :
    (WithdrawalOperation.execute op acct).1.opStatus = op.opStatus := by
  unfold WithdrawalOperation.execute
  split
  · rfl
  · split <;> rfl

theorem withdrawalUndo_opStatus (op : WithdrawalOperationState)
    (acct : BankAccountState) :
    (WithdrawalOperation.undo op acct).1.opStatus = op.opStatus := by
  unfold WithdrawalOperation.undo
  split <;> rfl

theorem depositRun_opStatus (op : DepositOperationState)
    (acct : BankAccountState) (c : Call) :
    (DepositOperation.run op acct c).1.opStatus = op.opStatus := by
  cases c
  · exact depositExecute_opStatus op acct
  · exact depositUndo_opStatus op acct

theorem withdrawalRun_opStatus (op : WithdrawalOperationState)
    (acct : BankAccountState) (c : Call) :
    (WithdrawalOperation.run op acct c).1.opStatus = op.opStatus := by
  cases c
  · exact withdrawalExecute_opStatus op acct
  · exact withdrawalUndo_opStatus op acct

theorem depositRunSeq_opStatus (cs : List Call) :
    ∀ (op : DepositOperationState) (acct : BankAccountState),
      (DepositOperation.runSeq op acct cs).1.opStatus = op.opStatus := by
  induction cs with
  | nil => intro op acct; rfl
  | cons c cs ih =>
      intro op acct
      rw [DepositOperation.runSeq, ih, depositRun_opStatus]

theorem withdrawalRunSeq_opStatus (cs : List Call) :
    ∀ (op : WithdrawalOperationState) (acct : BankAccountState),
      (WithdrawalOperation.runSeq op acct cs).1.opStatus = op.opStatus := by
  induction cs with
  | nil => intro op acct; rfl
  | cons c cs ih =>
      intro op acct
      rw [WithdrawalOperation.runSeq, ih, withdrawalRun_opStatus]

/-!
Claim theorems.
-/

/-- C1 (evaluation at the failing input): a deposit `execute` on a fresh
operation adds the amount to the balance and then raises `AttributeError`
at the append to the nonexistent `_operation_history` attribute: it never
appends a history entry, never writes any status, and never returns True.
And since the `status` property still reads `'I'`, a repeated `execute`
is not rejected either: it adds the amount a second time and raises
again. -/
theorem deposit_execute_raises_attribute_error :
    (DepositOperation.execute (DepositOperation.initState 1 100 "")
      ⟨0, []⟩).2.2 = Except.error PyError.attributeError ∧
    (DepositOperation.execute (DepositOperation.initState 1 100 "")
      ⟨0, []⟩).2.1.balance = 100 ∧
    (DepositOperation.execute (DepositOperation.initState 1 100 "")
      ⟨0, []⟩).2.1.history.length = 0 ∧
    (DepositOperation.execute (DepositOperation.initState 1 100 "")
      ⟨0, []⟩).1 = DepositOperation.initState 1 100 "" ∧
    (DepositOperation.execute
      (DepositOperation.execute (DepositOperation.initState 1 100 "")
        ⟨0, []⟩).1
      (DepositOperation.execute (DepositOperation.initState 1 100 "")
        ⟨0, []⟩).2.1).2.2 = Except.error PyError.attributeError ∧
    (DepositOperation.execute
      (DepositOperation.execute (DepositOperation.initState 1 100 "")
        ⟨0, []⟩).1
      (DepositOperation.execute (DepositOperation.initState 1 100 "")
        ⟨0, []⟩).2.1).2.1.balance = 200 := by
  norm_num [DepositOperation.execute, DepositOperation.initState,
    DepositOperationState.status]

/-- C2 (evaluation at the failing inputs): withdrawing 50 from balance 0
returns False without touching balance or history, but writes `'E'` only
to the mangled `_WithdrawalOperation__status`, so the observable status
stays `'I'` instead of becoming Failed.  Withdrawing 40 from balance 100
decrements the balance and then raises `AttributeError` at the append to
the nonexistent `_operation_history`: it never appends, never writes any
status (so the observable status again stays `'I'`), and never returns
True. -/
theorem withdrawal_execute_diverges_from_claim :
    (WithdrawalOperation.execute (WithdrawalOperation.initState 1 50)
      ⟨0, []⟩).2.2 = Except.ok false ∧
    (WithdrawalOperation.execute (WithdrawalOperation.initState 1 50)
      ⟨0, []⟩).2.1.balance = 0 ∧
    (WithdrawalOperation.execute (WithdrawalOperation.initState 1 50)
      ⟨0, []⟩).2.1.history.length = 0 ∧
    (WithdrawalOperation.execute (WithdrawalOperation.initState 1 50)
      ⟨0, []⟩).1.wStatus = some 'E' ∧
    (WithdrawalOperation.execute (WithdrawalOperation.initState 1 50)
      ⟨0, []⟩).1.status = 'I' ∧
    (WithdrawalOperation.execute (WithdrawalOperation.initState 2 40)
      ⟨100, []⟩).2.2 = Except.error PyError.attributeError ∧
    (WithdrawalOperation.execute (WithdrawalOperation.initState 2 40)
      ⟨100, []⟩).2.1.balance = 60 ∧
    (WithdrawalOperation.execute (WithdrawalOperation.initState 2 40)
      ⟨100, []⟩).2.1.history.length = 0 ∧
    (WithdrawalOperation.execute (WithdrawalOperation.initState 2 40)
      ⟨100, []⟩).1.wStatus = none ∧
    (WithdrawalOperation.execute (WithdrawalOperation.initState 2 40)
      ⟨100, []⟩).1.status = 'I' := by
  norm_num [WithdrawalOperation.execute, WithdrawalOperation.initState,
    WithdrawalOperationState.status]

/-- C3 (evaluation at the failing input): no `execute` ever completes
successfully (each raises `AttributeError` after mutating the balance),
and the immediately following `undo` returns False and changes nothing,
because its `status != 'D'` guard reads the base-class attribute that is
still `'I'`.  The balance therefore stays at the mutated post-execute
value (100, resp. 70) instead of being restored to the pre-execute value
(0, resp. 100). -/
theorem undo_after_execute_does_not_restore :
    (DepositOperation.execute (DepositOperation.initState 1 100 "")
      ⟨0, []⟩).2.2 = Except.error PyError.attributeError ∧
    (DepositOperation.undo
      (DepositOperation.execute (DepositOperation.initState 1 100 "")
        ⟨0, []⟩).1
      (DepositOperation.execute (DepositOperation.initState 1 100 "")
        ⟨0, []⟩).2.1).2.2 = false ∧
    (DepositOperation.undo
      (DepositOperation.execute (DepositOperation.initState 1 100 "")
        ⟨0, []⟩).1
      (DepositOperation.execute (DepositOperation.initState 1 100 "")
        ⟨0, []⟩).2.1).2.1.balance = 100 ∧
    (WithdrawalOperation.execute (WithdrawalOperation.initState 2 30)
      ⟨100, []⟩).2.2 = Except.error PyError.attributeError ∧
    (WithdrawalOperation.undo
      (WithdrawalOperation.execute (WithdrawalOperation.initState 2 30)
        ⟨100, []⟩).1
      (WithdrawalOperation.execute (WithdrawalOperation.initState 2 30)
        ⟨100, []⟩).2.1).2.2 = false ∧
    (WithdrawalOperation.undo
      (WithdrawalOperation.execute (WithdrawalOperation.initState 2 30)
        ⟨100, []⟩).1
      (WithdrawalOperation.execute (WithdrawalOperation.initState 2 30)
        ⟨100, []⟩).2.1).2.1.balance = 70 := by
  norm_num [DepositOperation.execute, DepositOperation.undo,
    DepositOperation.initState, WithdrawalOperation.execute,
    WithdrawalOperation.undo, WithdrawalOperation.initState,
    DepositOperationState.status, WithdrawalOperationState.status,
    (by decide : ('I' : Char) ≠ 'D')]

/-- C4 (evaluation at the failing input): a second `execute` on an
already-executed withdrawal is not a harmless no-op.  The `status != 'I'`
guard still passes (the observable status never changed), so the call
decrements the balance again (100 → 70 → 40) and raises `AttributeError`,
instead of returning False with no mutation and no error as the claimed
guard policy requires; history never gains an entry at all. -/
theorem second_execute_not_a_noop :
    (WithdrawalOperation.execute (WithdrawalOperation.initState 3 30)
      ⟨100, []⟩).2.2 = Except.error PyError.attributeError ∧
    (WithdrawalOperation.execute (WithdrawalOperation.initState 3 30)
      ⟨100, []⟩).2.1.balance = 70 ∧
    (WithdrawalOperation.execute
      (WithdrawalOperation.execute (WithdrawalOperation.initState 3 30)
        ⟨100, []⟩).1
      (WithdrawalOperation.execute (WithdrawalOperation.initState 3 30)
        ⟨100, []⟩).2.1).2.2 = Except.error PyError.attributeError ∧
    (WithdrawalOperation.execute
      (WithdrawalOperation.execute (WithdrawalOperation.initState 3 30)
        ⟨100, []⟩).1
      (WithdrawalOperation.execute (WithdrawalOperation.initState 3 30)
        ⟨100, []⟩).2.1).2.1.balance = 40 ∧
    (WithdrawalOperation.execute
      (WithdrawalOperation.execute (WithdrawalOperation.initState 3 30)
        ⟨100, []⟩).1
      (WithdrawalOperation.execute (WithdrawalOperation.initState 3 30)
        ⟨100, []⟩).2.1).2.1.history.length = 0 := by
  norm_num [WithdrawalOperation.execute, WithdrawalOperation.initState,
    WithdrawalOperationState.status]

/-- C5: an `InterestAccrualOperation` freezes its value at construction as
`rate * balance`, against the balance at construction time, and executing
it later against any account state (in particular one whose balance
changed in between) adds exactly that frozen amount to the balance.  (The
call then raises `AttributeError` at the history append — the C1 bug —
but the balance increase it applies first is exactly the frozen
amount.) -/
theorem interest_amount_frozen_at_construction (opId : Int)
    (acct acctLater : BankAccountState) (rate : ℚ) :
    (InterestAccrualOperation.initState opId acct rate).value
      = rate * acct.balance ∧
    (DepositOperation.execute (InterestAccrualOperation.initState opId acct rate)
        acctLater).2.1.balance = acctLater.balance + rate * acct.balance := by
  refine ⟨rfl, ?_⟩
  simp [DepositOperation.execute, InterestAccrualOperation.initState,
    DepositOperation.initState, DepositOperationState.status]

/-- C6 (evaluation at the failing input): constructing a `BankAccount` from
a valid `User`, or any operation from a valid account and `Decimal`,
raises `UnboundLocalError` at the `id_counter += 1` /
`operation_id_counter += 1` statements (no `global` declaration), so no
account or operation ever receives an id at all. -/
theorem id_counters_raise_unbound_local :
    BankAccount.init (PyVal.user 0) = Except.error PyError.unboundLocalError ∧
    DepositOperation.init (PyVal.bankAccount ⟨0, []⟩) (PyVal.decimal 5) ""
      = Except.error PyError.unboundLocalError :=
  ⟨rfl, rfl⟩

/-- C7: neither deposit `undo` nor withdrawal `undo` ever changes the
account's history (on any operation state, in either guard branch), and
the `operations_history` accessor is a pure snapshot: it returns the list
of `str(operation)` strings computed from the stored log, so it is
unchanged by `undo` and gives callers no handle on the underlying list. -/
theorem undo_preserves_history (dop : DepositOperationState)
    (wop : WithdrawalOperationState) (acct : BankAccountState) :
    (DepositOperation.undo dop acct).2.1.history = acct.history ∧
    (WithdrawalOperation.undo wop acct).2.1.history = acct.history ∧
    BankAccount.operations_history ((DepositOperation.undo dop acct).2.1)
      = BankAccount.operations_history acct ∧
    BankAccount.operations_history acct = acct.history.map strOfOpInfo := by
  refine ⟨?_, ?_, ?_, rfl⟩ <;>
    simp only [DepositOperation.undo, WithdrawalOperation.undo,
      BankAccount.operations_history] <;>
    split <;> rfl

/-- C8: every constructor performs its `isinstance` checks before anything
else, so a wrong-typed argument raises `ValueError` immediately and no
object is created: a non-`User` for `BankAccount`, a non-`BankAccount`
account for any operation (checked first), or a non-`Decimal`
amount/rate for any operation (checked second). -/
theorem constructor_type_checks_raise_value_error (u a v : PyVal)
    (c : String) :
    (u.isUser = false →
      BankAccount.init u = Except.error PyError.valueError) ∧
    (a.isBankAccount = false →
      DepositOperation.init a v c = Except.error PyError.valueError ∧
      WithdrawalOperation.init a v c = Except.error PyError.valueError ∧
      InterestAccrualOperation.init a v = Except.error PyError.valueError) ∧
    (a.isBankAccount = true → v.isDecimal = false →
      DepositOperation.init a v c = Except.error PyError.valueError ∧
      WithdrawalOperation.init a v c = Except.error PyError.valueError ∧
      InterestAccrualOperation.init a v = Except.error PyError.valueError) := by
  refine ⟨?_, ?_, ?_⟩
  · intro h
    cases u <;> simp_all [BankAccount.init, PyVal.isUser]
  · intro h
    cases a <;> cases v <;>
      simp_all [DepositOperation.init, WithdrawalOperation.init,
        InterestAccrualOperation.init, PyVal.isBankAccount]
  · intro h1 h2
    cases a <;> cases v <;>
      simp_all [DepositOperation.init, WithdrawalOperation.init,
        InterestAccrualOperation.init, PyVal.isBankAccount, PyVal.isDecimal]

/-- C8 witness: concrete wrong-typed arguments for each branch. -/
theorem constructor_type_checks_raise_value_error_witness :
    (PyVal.isUser (PyVal.int 3) = false ∧
      BankAccount.init (PyVal.int 3) = Except.error PyError.valueError) ∧
    (PyVal.isBankAccount PyVal.pyNone = false ∧
      DepositOperation.init PyVal.pyNone (PyVal.decimal 1) ""
        = Except.error PyError.valueError) ∧
    (PyVal.isBankAccount (PyVal.bankAccount ⟨0, []⟩) = true ∧
      PyVal.isDecimal (PyVal.int 7) = false ∧
      WithdrawalOperation.init (PyVal.bankAccount ⟨0, []⟩) (PyVal.int 7) ""
        = Except.error PyError.valueError) :=
  ⟨⟨rfl,
    (constructor_type_checks_raise_value_error (PyVal.int 3) PyVal.pyNone
      (PyVal.decimal 1) "").1 rfl⟩,
   ⟨rfl,
    ((constructor_type_checks_raise_value_error (PyVal.int 3) PyVal.pyNone
      (PyVal.decimal 1) "").2.1 rfl).1⟩,
   ⟨rfl, rfl,
    ((constructor_type_checks_raise_value_error (PyVal.int 3)
      (PyVal.bankAccount ⟨0, []⟩) (PyVal.int 7) "").2.2 rfl rfl).2.1⟩⟩

/-- C9: the observable `status` property reads the attribute
`_Operation__status`, which only `Operation.__init__` ever writes: the
only status write `execute`/`undo` ever reach is the withdrawal guard's
mangled `'E'` (the `'D'`/`'U'` writes sit behind the `AttributeError` or
an unsatisfiable guard), and mangled writes touch distinct attributes.
Hence after any sequence of `execute`/`undo` calls on a deposit, a
withdrawal, or an interest accrual — whether each call returned or
raised, with its partial state effects threaded — the `status` property
still returns `'I'`. -/
theorem status_accessor_constant_I (opId : Int) (q rate : ℚ) (c : String)
    (acct1 acct2 acct3 acctAtConstruction : BankAccountState)
    (cs1 cs2 cs3 : List Call) :
    (DepositOperation.runSeq (DepositOperation.initState opId q c)
      acct1 cs1).1.status = 'I' ∧
    (WithdrawalOperation.runSeq (WithdrawalOperation.initState opId q)
      acct2 cs2).1.status = 'I' ∧
    (DepositOperation.runSeq
      (InterestAccrualOperation.initState opId acctAtConstruction rate)
      acct3 cs3).1.status = 'I' := by
  refine ⟨?_, ?_, ?_⟩ <;>
    simp [DepositOperationState.status, WithdrawalOperationState.status,
      depositRunSeq_opStatus, withdrawalRunSeq_opStatus,
      DepositOperation.initState, WithdrawalOperation.initState,
      InterestAccrualOperation.initState]

/-- C10: once the `isinstance` checks pass, every constructor executes the
`+= 1` on its module-level counter without a `global` declaration, so every
well-typed construction of a `BankAccount` or of any operation raises
`UnboundLocalError` and never returns an instance. -/
theorem wellTyped_construction_raises_unbound_local (u a v r : PyVal)
    (c : String) :
    (u.isUser = true →
      BankAccount.init u = Except.error PyError.unboundLocalError) ∧
    (a.isBankAccount = true → v.isDecimal = true →
      DepositOperation.init a v c = Except.error PyError.unboundLocalError ∧
      WithdrawalOperation.init a v c
        = Except.error PyError.unboundLocalError) ∧
    (a.isBankAccount = true → r.isDecimal = true →
      InterestAccrualOperation.init a r
        = Except.error PyError.unboundLocalError) := by
  refine ⟨?_, ?_, ?_⟩
  · intro h
    cases u <;> simp_all [BankAccount.init, PyVal.isUser]
  · intro h1 h2
    cases a <;> cases v <;>
      simp_all [DepositOperation.init, WithdrawalOperation.init,
        Operation.initCounter, PyVal.isBankAccount, PyVal.isDecimal,
        Except.bind]
  · intro h1 h2
    cases a <;> cases r <;>
      simp_all [DepositOperation.init, InterestAccrualOperation.init,
        Operation.initCounter, PyVal.isBankAccount, PyVal.isDecimal,
        Except.bind]

/-- C10 witness: concrete well-typed arguments for each branch. -/
theorem wellTyped_construction_raises_unbound_local_witness :
    (PyVal.isUser (PyVal.user 7) = true ∧
      BankAccount.init (PyVal.user 7)
        = Except.error PyError.unboundLocalError) ∧
    (PyVal.isBankAccount (PyVal.bankAccount ⟨0, []⟩) = true ∧
      PyVal.isDecimal (PyVal.decimal 3) = true ∧
      WithdrawalOperation.init (PyVal.bankAccount ⟨0, []⟩) (PyVal.decimal 3) ""
        = Except.error PyError.unboundLocalError ∧
      InterestAccrualOperation.init (PyVal.bankAccount ⟨0, []⟩)
        (PyVal.decimal 3) = Except.error PyError.unboundLocalError) :=
  ⟨⟨rfl,
    (wellTyped_construction_raises_unbound_local (PyVal.user 7)
      (PyVal.bankAccount ⟨0, []⟩) (PyVal.decimal 3) (PyVal.decimal 3) "").1
      rfl⟩,
   ⟨rfl, rfl,
    ((wellTyped_construction_raises_unbound_local (PyVal.user 7)
      (PyVal.bankAccount ⟨0, []⟩) (PyVal.decimal 3) (PyVal.decimal 3) "").2.1
      rfl rfl).2,
    (wellTyped_construction_raises_unbound_local (PyVal.user 7)
      (PyVal.bankAccount ⟨0, []⟩) (PyVal.decimal 3) (PyVal.decimal 3) "").2.2
      rfl rfl⟩⟩
